import Mathlib

/-!
Verification of the SocialBoost publish pipeline
(`Automatizare_Completa/auto_post.py` and the asset-rotation selector).

The Python operations are shallowly embedded as pure Lean functions.
Network interaction is modelled by passing in the sequence of outcomes
that the HTTP library would deliver for each request (a parsed response,
or a raised exception), and each operation returns the structured result
dictionary together with a trace of the calls it made and the sleeps it
performed.
-/

namespace AutoPost

/-- Exceptions raised by the `requests` library (or by `open`) that the
Python code catches: `Timeout`, `ConnectionError`, `RequestException`,
`FileNotFoundError`, and a catch-all `Exception`. -/
inductive PyExn where
  | timeout
  | connectionError
  | requestException (msg : String)
  | fileNotFound
  | otherException (msg : String)
deriving Repr, DecidableEq

/-- Outcome of one HTTP request: either a delivered response with an HTTP
status code and an (already parsed) body abstraction `β`, or a raised
exception. -/
inductive NetEvent (β : Type) where
  | response (code : Nat) (body : β)
  | exn (e : PyExn)
deriving Repr, DecidableEq

/-- Python truthiness/blank test used by all three publishers:
`not message or not message.strip()` holds exactly when every character
of the string is (ASCII) whitespace — the empty string included. -/
def pyIsSpace (c : Char) : Bool :=
  c = ' ' || c = '\t' || c = '\n' || c = '\x0d' || c = '\x0b' || c = '\x0c'

/-- `not message or not message.strip()` from the source. -/
def pyBlank (s : String) : Bool :=
  s.data.all pyIsSpace

/-- `str.lower()` as applied to a path suffix (the extension whitelists
are ASCII, so only ASCII case matters). -/
def asciiLower (s : String) : String :=
  ⟨s.data.map fun c => if 'A' ≤ c && c ≤ 'Z' then Char.ofNat (c.toNat + 32) else c⟩

/-- Extraction of the platform error message performed at every non-200
branch of the source: `response.json().get('error', \x7b\x7d).get('message',
error_text)` with the raw `response.text` as fallback when the body does
not parse or carries no `error.message`. `jsonErrorMessage` is `some m`
exactly when the body parses as JSON and has an `error.message` field. -/
def errorMessageOf (jsonErrorMessage : Option String) (text : String) : String :=
  jsonErrorMessage.getD text

/-- The structured result dictionary returned by every publish operation.
Optional fields model keys that are present only on some paths; a
`post_id` value of `some none` models a present key holding Python
`None`. -/
structure PostResult where
  status : String
  post_id : Option (Option String) := none
  message : Option String := none
  error : Option String := none
  status_code : Option Nat := none
  image_path : Option String := none
  video_path : Option String := none
  video_id : Option (Option String) := none
  file_size : Option Nat := none
deriving Repr, DecidableEq

/-! ## `post_text` -/

/-- Body abstraction for a response on the text-post path: the optional
`id` field of the parsed JSON, the optional `error.message` field, and
the raw response text. -/
structure TextBody where
  id : Option String := none
  jsonErrorMessage : Option String := none
  text : String := ""
deriving Repr, DecidableEq

/-- Status codes the source treats as retryable:
`response.status_code in [429, 500, 502, 503, 504]`. -/
def retryableCodes : List Nat := [429, 500, 502, 503, 504]

/-- `max_retries = 3` in `post_text`. -/
def max_retries : Nat := 3

/-- Trace of one `post_text` run: the returned dictionary, the number of
HTTP calls issued, and the list of back-off sleeps (in seconds) in
order. -/
structure TextRun where
  result : PostResult
  calls : Nat
  sleeps : List Nat
deriving Repr, DecidableEq

/-- The retry loop of `post_text` (`for attempt in range(max_retries)`).
`fuel` is the number of loop iterations still available (initially
`max_retries`); `attempt` is the current iteration index. The Python
guard `attempt < max_retries - 1` is equivalent to `0 < fuel` at the
head of an iteration. The fuel-exhausted case is the fall-through line
after the loop. -/
def postTextLoop (outcomes : Nat → NetEvent TextBody) : Nat → Nat → TextRun
  | 0, _ =>
    ⟨{ status := "failed", error := some "Unexpected error in retry logic" }, 0, []⟩
  | fuel + 1, attempt =>
    match outcomes attempt with
    | .response code body =>
      if code = 200 then
        ⟨{ status := "success", post_id := some body.id,
           message := some "Post created successfully" }, 1, []⟩
      else if code ∈ retryableCodes then
        if 0 < fuel then
          let r := postTextLoop outcomes fuel (attempt + 1)
          ⟨r.result, r.calls + 1, 2 ^ attempt :: r.sleeps⟩
        else
          ⟨{ status := "failed",
             error := some ("API call failed after " ++ toString max_retries ++
               " attempts. Status: " ++ toString code) }, 1, []⟩
      else
        ⟨{ status := "failed",
           error := some (errorMessageOf body.jsonErrorMessage body.text),
           status_code := some code }, 1, []⟩
    | .exn .timeout =>
      if 0 < fuel then
        let r := postTextLoop outcomes fuel (attempt + 1)
        ⟨r.result, r.calls + 1, 2 ^ attempt :: r.sleeps⟩
      else
        ⟨{ status := "failed", error := some "Request timed out" }, 1, []⟩
    | .exn .connectionError =>
      if 0 < fuel then
        let r := postTextLoop outcomes fuel (attempt + 1)
        ⟨r.result, r.calls + 1, 2 ^ attempt :: r.sleeps⟩
      else
        ⟨{ status := "failed", error := some "Connection error" }, 1, []⟩
    | .exn (.requestException msg) =>
      if 0 < fuel then
        let r := postTextLoop outcomes fuel (attempt + 1)
        ⟨r.result, r.calls + 1, 2 ^ attempt :: r.sleeps⟩
      else
        ⟨{ status := "failed", error := some ("Request error: " ++ msg) }, 1, []⟩
    | .exn .fileNotFound =>
      ⟨{ status := "failed", error := some "Unexpected error: file not found" }, 1, []⟩
    | .exn (.otherException msg) =>
      ⟨{ status := "failed", error := some ("Unexpected error: " ++ msg) }, 1, []⟩

/-- `FacebookAutoPost.post_text`. `outcomes i` is what the `i`-th
`requests.post` call would produce. -/
def post_text (message : String) (outcomes : Nat → NetEvent TextBody) : TextRun :=
  if pyBlank message then
    ⟨{ status := "failed", error := some "Message cannot be empty" }, 0, []⟩
  else
    postTextLoop outcomes max_retries 0

/-! ## `post_image` -/

/-- Body abstraction for a response on the image path: optional `id` and
`post_id` fields, the optional `error.message`, and the raw text. -/
structure ImageBody where
  id : Option String := none
  post_id : Option String := none
  jsonErrorMessage : Option String := none
  text : String := ""
deriving Repr, DecidableEq

/-- `valid_extensions` of `post_image`. -/
def imageExtensions : List String := [".jpg", ".jpeg", ".png", ".gif", ".bmp"]

/-- Python `a or b` on two `.get` results (a present empty string is
falsy and falls through to `b`). -/
def pyOrStr (a b : Option String) : Option String :=
  match a with
  | some s => if s = "" then b else some s
  | none => b

/-- The filesystem facts `post_image` consults about its argument path:
`image_path.exists()`, `image_path.is_file()`, `image_path.suffix`, and
whether `open(image_path, 'rb')` raises `FileNotFoundError` in spite of
the earlier checks. -/
structure ImageArgs where
  message : String
  path : String
  fileExists : Bool := true
  isFile : Bool := true
  suffix : String
  openFails : Bool := false
deriving Repr, DecidableEq

/-- Trace of one `post_image` run: the returned dictionary and the
number of HTTP calls issued. -/
structure ImageRun where
  result : PostResult
  calls : Nat
deriving Repr, DecidableEq

/-- `FacebookAutoPost.post_image`. `event` is what the single
`requests.post` call would produce. -/
def post_image (args : ImageArgs) (event : NetEvent ImageBody) : ImageRun :=
  if pyBlank args.message then
    ⟨{ status := "failed", error := some "Message cannot be empty" }, 0⟩
  else if !args.fileExists || !args.isFile then
    ⟨{ status := "failed", error := some "Image file not found or invalid" }, 0⟩
  else if asciiLower args.suffix ∉ imageExtensions then
    ⟨{ status := "failed", error := some ("Unsupported image format: " ++ args.suffix) }, 0⟩
  else if args.openFails then
    ⟨{ status := "failed", error := some "Image file not found",
       image_path := some args.path }, 0⟩
  else
    match event with
    | .response code body =>
      if code = 200 then
        ⟨{ status := "success", post_id := some (pyOrStr body.id body.post_id),
           message := some "Image post created successfully",
           image_path := some args.path }, 1⟩
      else
        ⟨{ status := "failed",
           error := some (errorMessageOf body.jsonErrorMessage body.text),
           status_code := some code, image_path := some args.path }, 1⟩
    | .exn .timeout =>
      ⟨{ status := "failed", error := some "Request timed out (image upload)",
         image_path := some args.path }, 1⟩
    | .exn .connectionError =>
      ⟨{ status := "failed", error := some "Connection error",
         image_path := some args.path }, 1⟩
    | .exn (.requestException msg) =>
      ⟨{ status := "failed", error := some ("Request error: " ++ msg),
         image_path := some args.path }, 1⟩
    | .exn .fileNotFound =>
      ⟨{ status := "failed", error := some "Image file not found",
         image_path := some args.path }, 1⟩
    | .exn (.otherException msg) =>
      ⟨{ status := "failed", error := some ("Unexpected error: " ++ msg),
         image_path := some args.path }, 1⟩

/-! ## `post_video` -/

/-- Parsed body of the `upload_phase=start` response. -/
structure StartBody where
  video_id : Option String := none
  upload_session_id : Option String := none
  start_offset : Option Int := none
  jsonErrorMessage : Option String := none
  text : String := ""
deriving Repr, DecidableEq

/-- Parsed body of an `upload_phase=transfer` response. -/
structure TransferBody where
  start_offset : Option Int := none
  jsonErrorMessage : Option String := none
  text : String := ""
deriving Repr, DecidableEq

/-- Parsed body of the `upload_phase=finish` response. -/
structure FinishBody where
  success : Option Bool := none
  jsonErrorMessage : Option String := none
  text : String := ""
deriving Repr, DecidableEq

/-- Parsed body of a status-poll response; `status` is the `status`
field of the JSON when present. -/
structure StatusBody where
  status : Option String := none
deriving Repr, DecidableEq

/-- The network outcomes a `post_video` run may consume: one start
event, one transfer event per transfer call, one finish event, and one
event per status poll. -/
structure VideoServer where
  start : NetEvent StartBody
  transfer : Nat → NetEvent TransferBody
  finish : NetEvent FinishBody
  statusPoll : Nat → NetEvent StatusBody

/-- `valid_extensions` of `post_video`. -/
def videoExtensions : List String :=
  [".mp4", ".mov", ".avi", ".wmv", ".mkv", ".flv", ".webm"]

/-- `chunk_size = 4 * 1024 * 1024` (4 MiB). -/
def chunk_size : Nat := 4 * 1024 * 1024

/-- `max_checks = 10` status polls after a successful finish. -/
def max_checks : Nat := 10

/-- The filesystem facts `post_video` consults: existence, regularity,
suffix, an optional `OSError` from `stat` and the file's byte content
(`stat().st_size` is its length), plus whether `open` raises. -/
structure VideoArgs where
  message : String
  path : String
  fileExists : Bool := true
  isFile : Bool := true
  suffix : String
  statError : Option String := none
  content : List Nat := []
  openFails : Bool := false
deriving Repr, DecidableEq

/-- Outcome of the chunk-transfer loop: normal completion, a non-200
transfer response, or a raised exception; in each case `chunks` lists
the byte length of every chunk sent, in order. -/
inductive TransferOutcome where
  | done (chunks : List Nat)
  | apiError (errorMessage : String) (chunks : List Nat)
  | raised (e : PyExn) (chunks : List Nat)
deriving Repr, DecidableEq

/-- The chunk-size trace carried by a `TransferOutcome`, whatever its
shape. -/
def TransferOutcome.chunks : TransferOutcome → List Nat
  | .done cs => cs
  | .apiError _ cs => cs
  | .raised _ cs => cs

/-- The `while current_offset < file_size` chunk-transfer loop.
`remaining` is the unread tail of the file (the handle reads
sequentially, independent of `current_offset`); `k` indexes the
transfer calls. `fuel` only bounds the recursion: every call site
passes `remaining.length + 1`, and since each iteration that recurses
consumes at least one byte of `remaining`, the fuel-0 case is never
reached from those call sites; the claims are proved under that fuel
bound. -/
def transferLoop (transfer : Nat → NetEvent TransferBody) (file_size : Nat) :
    Nat → List Nat → Int → Nat → TransferOutcome
  | 0, _, _, _ => .done []
  | fuel + 1, remaining, current_offset, k =>
    if current_offset < (file_size : Int) then
      let chunk_data := remaining.take chunk_size
      if chunk_data.isEmpty then .done []
      else
        match transfer k with
        | .response code body =>
          if code = 200 then
            let new_offset := body.start_offset.getD (current_offset + chunk_data.length)
            match transferLoop transfer file_size fuel (remaining.drop chunk_size) new_offset (k + 1) with
            | .done cs => .done (chunk_data.length :: cs)
            | .apiError m cs => .apiError m (chunk_data.length :: cs)
            | .raised e cs => .raised e (chunk_data.length :: cs)
          else
            .apiError (errorMessageOf body.jsonErrorMessage body.text) [chunk_data.length]
        | .exn e => .raised e [chunk_data.length]
    else
      .done []

/-- The post-finish status-poll loop (`for check_num in range(max_checks)`),
returning the exception it raised (if any) and the number of `GET`
calls it made. A 200 response with status `ready` or `failed` breaks
early; every other response just continues. -/
def pollLoop (statusPoll : Nat → NetEvent StatusBody) : Nat → Nat → Option PyExn × Nat
  | _, 0 => (none, 0)
  | check_num, rem + 1 =>
    match statusPoll check_num with
    | .exn e => (some e, 1)
    | .response code body =>
      if code = 200 then
        let video_status := body.status.getD "unknown"
        if video_status = "ready" then (none, 1)
        else if video_status = "failed" then (none, 1)
        else
          let r := pollLoop statusPoll (check_num + 1) rem
          (r.1, r.2 + 1)
      else
        let r := pollLoop statusPoll (check_num + 1) rem
        (r.1, r.2 + 1)

/-- The `except` clauses at the bottom of `post_video`, mapping a raised
exception to the returned dictionary. -/
def videoExnResult (path : String) (e : PyExn) : PostResult :=
  match e with
  | .timeout =>
    { status := "failed", error := some "Request timed out", video_path := some path }
  | .connectionError =>
    { status := "failed", error := some "Connection error", video_path := some path }
  | .requestException m =>
    { status := "failed", error := some ("Request error: " ++ m), video_path := some path }
  | .fileNotFound =>
    { status := "failed", error := some "Video file not found", video_path := some path }
  | .otherException m =>
    { status := "failed", error := some ("Unexpected error: " ++ m), video_path := some path }

/-- Trace of one `post_video` run: the returned dictionary, the number
of start calls, the byte lengths of the chunks sent by the transfer
calls (one entry per transfer call), the number of finish calls, and
the number of status-poll calls. -/
structure VideoRun where
  result : PostResult
  startCalls : Nat
  transferChunks : List Nat
  finishCalls : Nat
  pollCalls : Nat
deriving Repr, DecidableEq

/-- `FacebookAutoPost.post_video`. -/
def post_video (args : VideoArgs) (server : VideoServer) : VideoRun :=
  if pyBlank args.message then
    ⟨{ status := "failed", error := some "Message cannot be empty" }, 0, [], 0, 0⟩
  else if !args.fileExists || !args.isFile then
    ⟨{ status := "failed", error := some "Video file not found or invalid" }, 0, [], 0, 0⟩
  else if asciiLower args.suffix ∉ videoExtensions then
    ⟨{ status := "failed", error := some ("Unsupported video format: " ++ args.suffix) }, 0, [], 0, 0⟩
  else
    match args.statError with
    | some e =>
      ⟨{ status := "failed", error := some ("Could not get file size: " ++ e) }, 0, [], 0, 0⟩
    | none =>
      let file_size := args.content.length
      match server.start with
      | .exn e => ⟨videoExnResult args.path e, 1, [], 0, 0⟩
      | .response code body =>
        if code ≠ 200 then
          ⟨{ status := "failed",
             error := some ("Start upload failed: " ++
               errorMessageOf body.jsonErrorMessage body.text) }, 1, [], 0, 0⟩
        else
          let start_offset := body.start_offset.getD 0
          if args.openFails then
            ⟨videoExnResult args.path .fileNotFound, 1, [], 0, 0⟩
          else
            match transferLoop server.transfer file_size (args.content.length + 1)
                args.content start_offset 0 with
            | .raised e cs => ⟨videoExnResult args.path e, 1, cs, 0, 0⟩
            | .apiError m cs =>
              ⟨{ status := "failed", error := some ("Transfer failed: " ++ m) }, 1, cs, 0, 0⟩
            | .done cs =>
              match server.finish with
              | .exn e => ⟨videoExnResult args.path e, 1, cs, 1, 0⟩
              | .response fcode fbody =>
                if fcode ≠ 200 then
                  ⟨{ status := "failed",
                     error := some ("Finish upload failed: " ++
                       errorMessageOf fbody.jsonErrorMessage fbody.text) }, 1, cs, 1, 0⟩
                else if !(fbody.success.getD false) then
                  ⟨{ status := "failed", error := some "Upload finish failed" }, 1, cs, 1, 0⟩
                else
                  match pollLoop server.statusPoll 0 max_checks with
                  | (some e, polls) => ⟨videoExnResult args.path e, 1, cs, 1, polls⟩
                  | (none, polls) =>
                    ⟨{ status := "success", video_id := some body.video_id,
                       message := some "Video upload initiated successfully",
                       video_path := some args.path,
                       file_size := some file_size }, 1, cs, 1, polls⟩

/-! ## Asset rotation selector and tracking store

The functions `get_assets_to_post` (automatic-rotation mode),
`load_asset_tracking` and `save_asset_tracking` are imported by the
test suite from `Automatizare_Completa.auto_post`, but they are absent
from the copy of that module under `src/` — only their tests and
callers are available. The definitions below are therefore modelled
from the spec (§3, §4.3, §4.4), with the tests fixing the shapes. -/

/-- Modelled from the spec: Python's `<` on strings, strict
lexicographic comparison of the code-point sequences (used for the
"lexicographically smallest `last_posted` timestamp" rule of §4.4). -/
def lexLt : List Char → List Char → Bool
  | [], [] => false
  | [], _ :: _ => true
  | _ :: _, [] => false
  | a :: as, b :: bs => if a < b then true else if a = b then lexLt as bs else false

/-- Python string `<` lifted to `String`. -/
def pyStrLt (a b : String) : Bool := lexLt a.data b.data

/-- Lookup of a path's record in the tracking map (`path in tracking` /
`tracking[path]`); `none` models a path with no key — never posted. -/
def lastPosted (tracking : List (String × String)) (p : String) : Option String :=
  (tracking.find? fun kv => kv.1 == p).map Prod.snd

/-- `tracking[p]['last_posted']`, with the empty string for a missing
record (the posted branch of the selector only evaluates it on paths
that have a record). -/
def tsOf (tracking : List (String × String)) (p : String) : String :=
  (lastPosted tracking p).getD ""

/-- Modelled from the spec: Mode B of `get_assets_to_post` (automatic
rotation, §4.4), the function itself being absent from `src/`. `pool`
is the enumerated media pool in enumeration order; partition it into
never-posted (no key in the tracking store) and posted; if any asset
was never posted, return exactly one never-posted asset (enumeration
order as tie-break); otherwise return the posted asset whose
`last_posted` timestamp is lexicographically smallest, ties broken by
enumeration order; an empty pool yields an empty list. -/
def get_assets_to_post_auto (pool : List String)
    (tracking : List (String × String)) : List String :=
  let neverPosted := pool.filter fun p => (lastPosted tracking p).isNone
  match neverPosted with
  | q :: _ => [q]
  | [] =>
    match pool.filter (fun p => (lastPosted tracking p).isSome) with
    | [] => []
    | q :: rest =>
      [rest.foldl
        (fun best p => if pyStrLt (tsOf tracking p) (tsOf tracking best) then p else best) q]

/-- JSON trees, at the level of detail the Tracking Store document
needs. -/
inductive Json where
  | str (s : String)
  | obj (fields : List (String × Json))
deriving Repr

/-- Modelled from the spec: `save_asset_tracking(data)` rewrites the
store file with the single JSON document
`\x7bpath: \x7b"last_posted": timestamp\x7d, ...\x7d` (§3, §4.3); the parsed form of
the written document models the file. -/
def save_asset_tracking (data : List (String × String)) : Json :=
  .obj (data.map fun kv => (kv.1, .obj [("last_posted", .str kv.2)]))

/-- Modelled from the spec: `load_asset_tracking()` parses the store
file back into the map; a missing or malformed file (modelled as
`none`) yields the empty map (§4.3), and only entries shaped like asset
records contribute. -/
def load_asset_tracking : Option Json → List (String × String)
  | none => []
  | some (.obj fields) =>
    fields.filterMap fun kv =>
      match kv.2 with
      | .obj [("last_posted", .str v)] => some (kv.1, v)
      | _ => none
  | some _ => []

end AutoPost

namespace AutoPost

example :
    post_text "hi" (fun _ => .response 200 { id := some "p1" }) =
      ⟨{ status := "success", post_id := some (some "p1"),
         message := some "Post created successfully" }, 1, []⟩ := by
  decide

example :
    post_text "hi" (fun _ => .response 500 { text := "boom" }) =
      ⟨{ status := "failed",
         error := some "API call failed after 3 attempts. Status: 500" }, 3, [1, 2]⟩ := by
  decide

/-! ## Helper lemmas -/

lemma retryable_ne_200 {c : Nat} (hc : c ∈ retryableCodes) : c ≠ 200 := by
  simp only [retryableCodes, List.mem_cons, List.not_mem_nil, or_false] at hc
  omega

/-- Every iteration of the `post_text` retry loop issues at least one
HTTP call. -/
lemma postTextLoop_calls_pos (outcomes : Nat → NetEvent TextBody) (fuel attempt : Nat) :
    1 ≤ (postTextLoop outcomes (fuel + 1) attempt).calls := by
  rw [postTextLoop]
  cases outcomes attempt with
  | response code body =>
    by_cases h200 : code = 200
    · simp [h200]
    · by_cases hr : code ∈ retryableCodes
      · by_cases hf : 0 < fuel <;> simp [h200, hr, hf]
      · simp [h200, hr]
  | exn e =>
    cases e <;> by_cases hf : 0 < fuel <;> simp [hf]

/-! ## Claims about `post_text` -/

/-- C9: posting an empty or whitespace-only message, for any of the
three kinds, returns `status: failed` with error `Message cannot be
empty` and makes no network call (for image/video: before any file
validation or upload request — the traces show zero calls of every
kind). -/
theorem empty_message_fails_without_network
    (message : String) (h : pyBlank message = true)
    (outcomes : Nat → NetEvent TextBody)
    (iargs : ImageArgs) (ievent : NetEvent ImageBody)
    (vargs : VideoArgs) (server : VideoServer)
    (hi : iargs.message = message) (hv : vargs.message = message) :
    post_text message outcomes =
      ⟨{ status := "failed", error := some "Message cannot be empty" }, 0, []⟩ ∧
    post_image iargs ievent =
      ⟨{ status := "failed", error := some "Message cannot be empty" }, 0⟩ ∧
    post_video vargs server =
      ⟨{ status := "failed", error := some "Message cannot be empty" }, 0, [], 0, 0⟩ := by
  refine ⟨?_, ?_, ?_⟩ <;> simp [post_text, post_image, post_video, h, hi, hv]

/-- Concrete instance of `empty_message_fails_without_network` at a
whitespace-only message. -/
theorem empty_message_fails_without_network_witness :
    post_text "  " (fun _ => .response 200 {}) =
      ⟨{ status := "failed", error := some "Message cannot be empty" }, 0, []⟩ ∧
    post_image { message := "  ", path := "i.png", suffix := ".png" } (.response 200 {}) =
      ⟨{ status := "failed", error := some "Message cannot be empty" }, 0⟩ ∧
    post_video { message := "  ", path := "v.mp4", suffix := ".mp4", content := [1] }
      ⟨.response 200 {}, fun _ => .response 200 {}, .response 200 {},
       fun _ => .response 200 {}⟩ =
      ⟨{ status := "failed", error := some "Message cannot be empty" }, 0, [], 0, 0⟩ :=
  empty_message_fails_without_network "  " (by decide) _ _ _ _ _ rfl rfl

/-- C6: a text post whose first response has a non-retryable status
(any 4xx other than 429) makes exactly one HTTP call, sleeps never, and
returns a failed result carrying the platform error message and the
status code. -/
theorem text_non_retryable_single_call
    (message : String) (hm : pyBlank message = false)
    (outcomes : Nat → NetEvent TextBody) (code : Nat) (body : TextBody)
    (h0 : outcomes 0 = .response code body)
    (h4 : 400 ≤ code) (h5 : code < 500) (h429 : code ≠ 429) :
    post_text message outcomes =
      ⟨{ status := "failed",
         error := some (errorMessageOf body.jsonErrorMessage body.text),
         status_code := some code }, 1, []⟩ := by
  have h200 : code ≠ 200 := by omega
  have hnr : code ∉ retryableCodes := by
    simp only [retryableCodes, List.mem_cons, List.not_mem_nil, or_false]
    omega
  simp [post_text, hm, max_retries, postTextLoop, h0, h200, hnr]

/-- Concrete instance of `text_non_retryable_single_call` at status
403. -/
theorem text_non_retryable_single_call_witness :
    post_text "hi"
      (fun _ => .response 403 { jsonErrorMessage := some "denied", text := "t" }) =
      ⟨{ status := "failed", error := some "denied",
         status_code := some 403 }, 1, []⟩ :=
  text_non_retryable_single_call "hi" (by decide) _ 403
    { jsonErrorMessage := some "denied", text := "t" } rfl
    (by decide) (by decide) (by decide)

/-- C3: a text post whose three responses all carry a retryable status
(in \x7b429, 500, 502, 503, 504\x7d) makes exactly 3 HTTP calls, sleeping 1
second after the first attempt and 2 seconds after the second (and not
after the third), and fails with a message stating the attempt count
and the last observed status code. -/
theorem text_retryable_exhaustion
    (message : String) (hm : pyBlank message = false)
    (outcomes : Nat → NetEvent TextBody)
    (c0 c1 c2 : Nat) (b0 b1 b2 : TextBody)
    (h0 : outcomes 0 = .response c0 b0)
    (h1 : outcomes 1 = .response c1 b1)
    (h2 : outcomes 2 = .response c2 b2)
    (hc0 : c0 ∈ retryableCodes) (hc1 : c1 ∈ retryableCodes) (hc2 : c2 ∈ retryableCodes) :
    post_text message outcomes =
      ⟨{ status := "failed",
         error := some ("API call failed after 3 attempts. Status: " ++ toString c2) },
       3, [1, 2]⟩ := by
  have e0 := retryable_ne_200 hc0
  have e1 := retryable_ne_200 hc1
  have e2 := retryable_ne_200 hc2
  simp [post_text, hm, max_retries, postTextLoop, h0, h1, h2, e0, e1, e2, hc0, hc1, hc2]
  congr 1

/-- Concrete instance of `text_retryable_exhaustion`: three 503
responses. -/
theorem text_retryable_exhaustion_witness :
    post_text "hi" (fun _ => .response 503 {}) =
      ⟨{ status := "failed",
         error := some ("API call failed after 3 attempts. Status: " ++ toString 503) },
       3, [1, 2]⟩ :=
  text_retryable_exhaustion "hi" (by decide) _ 503 503 503 {} {} {} rfl rfl rfl
    (by decide) (by decide) (by decide)

/-- A timeout that still has retry budget makes the text loop sleep
`2^attempt` seconds and continue with the next attempt. -/
lemma postTextLoop_timeout_retries (outcomes : Nat → NetEvent TextBody)
    (fuel attempt : Nat) (h : outcomes attempt = .exn .timeout) (hf : 0 < fuel) :
    postTextLoop outcomes (fuel + 1) attempt =
      ⟨(postTextLoop outcomes fuel (attempt + 1)).result,
       (postTextLoop outcomes fuel (attempt + 1)).calls + 1,
       2 ^ attempt :: (postTextLoop outcomes fuel (attempt + 1)).sleeps⟩ := by
  simp only [postTextLoop, h, hf, if_true]

/-- C4: a request timeout on the text-post path is retried (the trace
shows a second HTTP call and a first back-off sleep of 1 second), while
a request timeout on the image path or the video path is surfaced
immediately as a failed result with no retry (exactly one image call;
exactly one video start call and nothing after it). -/
theorem timeout_retry_asymmetry :
    (∀ message : String, pyBlank message = false →
      ∀ outcomes : Nat → NetEvent TextBody, outcomes 0 = .exn .timeout →
        2 ≤ (post_text message outcomes).calls ∧
        (post_text message outcomes).sleeps.head? = some 1) ∧
    (∀ iargs : ImageArgs, pyBlank iargs.message = false → iargs.fileExists = true →
      iargs.isFile = true → asciiLower iargs.suffix ∈ imageExtensions →
      iargs.openFails = false →
      post_image iargs (.exn .timeout) =
        ⟨{ status := "failed", error := some "Request timed out (image upload)",
           image_path := some iargs.path }, 1⟩) ∧
    (∀ (vargs : VideoArgs) (server : VideoServer), pyBlank vargs.message = false →
      vargs.fileExists = true → vargs.isFile = true →
      asciiLower vargs.suffix ∈ videoExtensions → vargs.statError = none →
      server.start = .exn .timeout →
      post_video vargs server =
        ⟨{ status := "failed", error := some "Request timed out",
           video_path := some vargs.path }, 1, [], 0, 0⟩) := by
  refine ⟨?_, ?_, ?_⟩
  · intro message hm outcomes h0
    have step := postTextLoop_timeout_retries outcomes 2 0 h0 (by norm_num)
    have hc : 1 ≤ (postTextLoop outcomes 2 1).calls := postTextLoop_calls_pos outcomes 1 1
    rw [post_text]
    simp only [hm, Bool.false_eq_true, if_false]
    rw [show max_retries = 2 + 1 from rfl, step]
    exact ⟨by simpa using hc, rfl⟩
  · intro iargs hm hex hisf hsuf hopen
    simp [post_image, hm, hex, hisf, hsuf, hopen]
  · intro vargs server hm hex hisf hsuf hst hstart
    simp [post_video, hm, hex, hisf, hsuf, hst, hstart, videoExnResult]

/-- Concrete instance of `timeout_retry_asymmetry`: timeout on each
path. -/
theorem timeout_retry_asymmetry_witness :
    (2 ≤ (post_text "hi" (fun n => if n = 0 then .exn .timeout else .response 200 {})).calls ∧
      (post_text "hi" (fun n => if n = 0 then .exn .timeout else .response 200 {})).sleeps.head? =
        some 1) ∧
    post_image { message := "hi", path := "i.png", suffix := ".png" } (.exn .timeout) =
      ⟨{ status := "failed", error := some "Request timed out (image upload)",
         image_path := some "i.png" }, 1⟩ ∧
    post_video { message := "hi", path := "v.mp4", suffix := ".mp4", content := [1] }
      ⟨.exn .timeout, fun _ => .response 200 {}, .response 200 {},
       fun _ => .response 200 {}⟩ =
      ⟨{ status := "failed", error := some "Request timed out",
         video_path := some "v.mp4" }, 1, [], 0, 0⟩ :=
  ⟨timeout_retry_asymmetry.1 "hi" (by decide) _ rfl,
   timeout_retry_asymmetry.2.1 _ (by decide) rfl rfl (by decide) rfl,
   timeout_retry_asymmetry.2.2 _
     ⟨.exn .timeout, fun _ => .response 200 {}, .response 200 {}, fun _ => .response 200 {}⟩
     (by decide) rfl rfl (by decide) rfl rfl⟩

/-- C5: when a video upload reaches the finish call and that call
returns HTTP 200 whose JSON has `success` false or absent
(`finish_data.get('success', False)` is falsy), `post_video` returns a
failed result (`Upload finish failed`), never a success. -/
theorem video_finish_success_false_fails
    (vargs : VideoArgs) (server : VideoServer)
    (hm : pyBlank vargs.message = false) (hex : vargs.fileExists = true)
    (hisf : vargs.isFile = true) (hsuf : asciiLower vargs.suffix ∈ videoExtensions)
    (hst : vargs.statError = none) (hopen : vargs.openFails = false)
    (sbody : StartBody) (hstart : server.start = .response 200 sbody)
    (cs : List Nat)
    (htr : transferLoop server.transfer vargs.content.length (vargs.content.length + 1)
        vargs.content (sbody.start_offset.getD 0) 0 = .done cs)
    (fbody : FinishBody) (hfin : server.finish = .response 200 fbody)
    (hsucc : fbody.success.getD false = false) :
    post_video vargs server =
      ⟨{ status := "failed", error := some "Upload finish failed" }, 1, cs, 1, 0⟩ := by
  simp [post_video, hm, hex, hisf, hsuf, hst, hopen, hstart, htr, hfin, hsucc]

/-- Concrete instance of `video_finish_success_false_fails`: finish
responds 200 with no `success` flag. -/
theorem video_finish_success_false_fails_witness :
    post_video { message := "hi", path := "v.mp4", suffix := ".mp4", content := [1] }
      ⟨.response 200 { video_id := some "v", start_offset := some 0 },
       fun _ => .response 200 {}, .response 200 {}, fun _ => .response 200 {}⟩ =
      ⟨{ status := "failed", error := some "Upload finish failed" }, 1, [1], 1, 0⟩ :=
  video_finish_success_false_fails _ _ (by decide) rfl rfl (by decide) rfl rfl
    _ rfl [1] (by decide) _ rfl rfl

example :
    post_video { message := "hi", path := "v.mp4", suffix := ".mp4", content := [1, 2, 3] }
      { start := .response 200
          { video_id := some "v1", upload_session_id := some "s1", start_offset := some 0 },
        transfer := fun _ => .response 200 {},
        finish := .response 200 { success := some true },
        statusPoll := fun _ => .response 200 { status := some "ready" } } =
      ⟨{ status := "success", video_id := some (some "v1"),
         message := some "Video upload initiated successfully",
         video_path := some "v.mp4", file_size := some 3 }, 1, [3], 1, 1⟩ := by
  decide

/-! ## The status poll and the claims about `post_video`'s trace -/

/-- If every status-poll request delivers a response (of any status
code and body), the poll loop never raises. -/
lemma pollLoop_no_exn (sp : Nat → NetEvent StatusBody)
    (h : ∀ j, ∃ c b, sp j = .response c b) :
    ∀ rem check_num, (pollLoop sp check_num rem).1 = none := by
  intro rem
  induction rem with
  | zero => intro c; rfl
  | succ rem ih =>
    intro c
    obtain ⟨code, b, hb⟩ := h c
    simp only [pollLoop, hb]
    split_ifs <;> simp [ih]

/-- C1 (amended): after the finish phase succeeds, non-200 poll
responses and exhaustion of the 10 poll attempts are logged only: for
every poll stream made of responses (no raised exception), `post_video`
returns success carrying the video id and the file size. A timeout or
connection failure *raised* during a poll request is, however, caught
by the operation's outer handler and yields a failed result
(`video_poll_timeout_flips_result`). -/
theorem video_poll_responses_preserve_success
    (vargs : VideoArgs) (server : VideoServer)
    (hm : pyBlank vargs.message = false) (hex : vargs.fileExists = true)
    (hisf : vargs.isFile = true) (hsuf : asciiLower vargs.suffix ∈ videoExtensions)
    (hst : vargs.statError = none) (hopen : vargs.openFails = false)
    (sbody : StartBody) (hstart : server.start = .response 200 sbody)
    (cs : List Nat)
    (htr : transferLoop server.transfer vargs.content.length (vargs.content.length + 1)
        vargs.content (sbody.start_offset.getD 0) 0 = .done cs)
    (fbody : FinishBody) (hfin : server.finish = .response 200 fbody)
    (hsucc : fbody.success.getD false = true)
    (hpoll : ∀ j, ∃ c b, server.statusPoll j = .response c b) :
    post_video vargs server =
      ⟨{ status := "success", video_id := some sbody.video_id,
         message := some "Video upload initiated successfully",
         video_path := some vargs.path, file_size := some vargs.content.length },
       1, cs, 1, (pollLoop server.statusPoll 0 max_checks).2⟩ := by
  have hp := pollLoop_no_exn server.statusPoll hpoll max_checks 0
  simp only [post_video, hm, Bool.false_eq_true, if_false, hex, hisf, Bool.not_true,
    Bool.or_self, hsuf, hst, hopen, hstart, htr, hfin, hsucc]
  rcases hpe : pollLoop server.statusPoll 0 max_checks with ⟨o, polls⟩
  rw [hpe] at hp
  simp only at hp
  subst hp
  simp [hsuf]

/-- Concrete instance of `video_poll_responses_preserve_success` in the
exhaustion case: every poll gets HTTP 500, all 10 polls run, and the
result still reports success. -/
theorem video_poll_responses_preserve_success_witness :
    post_video { message := "hi", path := "v.mp4", suffix := ".mp4", content := [1] }
      ⟨.response 200 { video_id := some "v", start_offset := some 0 },
       fun _ => .response 200 {}, .response 200 { success := some true },
       fun _ => .response 500 {}⟩ =
      ⟨{ status := "success", video_id := some (some "v"),
         message := some "Video upload initiated successfully",
         video_path := some "v.mp4", file_size := some 1 },
       1, [1], 1, (pollLoop (fun _ => .response 500 {}) 0 max_checks).2⟩ :=
  video_poll_responses_preserve_success _
    ⟨.response 200 { video_id := some "v", start_offset := some 0 },
     fun _ => .response 200 {}, .response 200 { success := some true },
     fun _ => .response 500 {}⟩
    (by decide) rfl rfl (by decide) rfl rfl _ rfl [1] (by decide) _ rfl rfl
    (fun _ => ⟨500, {}, rfl⟩)

/-- C1 is false as stated for a timeout *during* a poll request: with
the upload (start, transfer, finish) fully successful, the first status
poll raising a timeout makes `post_video` return a failed result — the
already-successful outcome is not preserved. -/
theorem video_poll_timeout_flips_result :
    (post_video { message := "hi", path := "v.mp4", suffix := ".mp4", content := [1] }
      ⟨.response 200 { video_id := some "v", start_offset := some 0 },
       fun _ => .response 200 {}, .response 200 { success := some true },
       fun _ => .exn .timeout⟩).result =
      { status := "failed", error := some "Request timed out",
        video_path := some "v.mp4" } := by
  decide

/-- One step of the transfer loop on a 200 response: the loop sends the
next chunk and recurses with the server-reported (or computed) next
offset, consing the chunk length onto the trace. -/
lemma transferLoop_step_200
    (transfer : Nat → NetEvent TransferBody) (file_sz fuel : Nat)
    (remaining : List Nat) (off : Int) (k : Nat) (b : TransferBody)
    (hlt : off < (file_sz : Int))
    (hchunk : (remaining.take chunk_size).isEmpty = false)
    (hb : transfer k = .response 200 b) :
    transferLoop transfer file_sz (fuel + 1) remaining off k =
      match transferLoop transfer file_sz fuel (remaining.drop chunk_size)
          (b.start_offset.getD (off + ((remaining.take chunk_size).length : Int))) (k + 1) with
      | .done cs => .done ((remaining.take chunk_size).length :: cs)
      | .apiError m cs => .apiError m ((remaining.take chunk_size).length :: cs)
      | .raised e cs => .raised e ((remaining.take chunk_size).length :: cs) := by
  rw [transferLoop, if_pos hlt]
  simp [hchunk, hb]

/-- When every transfer response is HTTP 200 and omits `start_offset`
(so the client falls back to its own offset arithmetic), the transfer
loop completes normally and the chunk lengths it sends sum to exactly
the unread length, under the running invariant
`off + remaining.length = file_sz`. -/
lemma transferLoop_echo
    (transfer : Nat → NetEvent TransferBody) (file_sz : Nat)
    (h : ∀ k, ∃ b, transfer k = .response 200 b ∧ b.start_offset = none) :
    ∀ (fuel : Nat) (remaining : List Nat) (off : Int) (k : Nat),
      remaining.length < fuel → off + remaining.length = (file_sz : Int) →
      ∃ cs, transferLoop transfer file_sz fuel remaining off k = .done cs ∧
        cs.sum = remaining.length := by
  intro fuel
  induction fuel with
  | zero => intro remaining off k hf _; omega
  | succ fuel ih =>
    intro remaining off k hf hinv
    have hcpos : 0 < chunk_size := by norm_num [chunk_size]
    by_cases hlt : off < (file_sz : Int)
    · have hrem : remaining.length ≠ 0 := by omega
      have hchunk : (remaining.take chunk_size).isEmpty = false := by
        cases remaining with
        | nil => simp at hrem
        | cons a as => rfl
      obtain ⟨b, hb, hoff⟩ := h k
      have hlen : (remaining.take chunk_size).length = min chunk_size remaining.length :=
        List.length_take _ _
      have hdrop : (remaining.drop chunk_size).length = remaining.length - chunk_size :=
        List.length_drop _ _
      obtain ⟨cs, hcs, hsum⟩ := ih (remaining.drop chunk_size)
        (off + ((remaining.take chunk_size).length : Int)) (k + 1)
        (by rw [hdrop]; omega) (by rw [hdrop, hlen]; push_cast; omega)
      rw [transferLoop_step_200 transfer file_sz fuel remaining off k b hlt hchunk hb,
        hoff, Option.getD_none, hcs]
      exact ⟨(remaining.take chunk_size).length :: cs, rfl, by
        simp only [List.sum_cons, hsum, hdrop, hlen]; omega⟩
    · refine ⟨[], ?_, ?_⟩
      · rw [transferLoop, if_neg hlt]
      · have h0 : remaining.length = 0 := by omega
        simp [h0]

/-- For every server behaviour and any fuel, the number of transfer
calls the loop makes is at most ⌈remaining.length / chunk_size⌉: each
call consumes a full chunk of the sequential file handle, so reads are
exhausted after that many calls. -/
lemma transferLoop_chunks_length_le
    (transfer : Nat → NetEvent TransferBody) (file_sz : Nat) :
    ∀ (fuel : Nat) (remaining : List Nat) (off : Int) (k : Nat),
      (transferLoop transfer file_sz fuel remaining off k).chunks.length ≤
        (remaining.length + chunk_size - 1) / chunk_size := by
  intro fuel
  induction fuel with
  | zero => intro remaining off k; simp [transferLoop, TransferOutcome.chunks]
  | succ fuel ih =>
    intro remaining off k
    have hc4 : chunk_size = 4194304 := by norm_num [chunk_size]
    by_cases hlt : off < (file_sz : Int)
    · by_cases he : (remaining.take chunk_size).isEmpty
      · rw [transferLoop, if_pos hlt]
        simp [he, TransferOutcome.chunks]
      · have heb : (remaining.take chunk_size).isEmpty = false := by
          cases hvb : (remaining.take chunk_size).isEmpty
          · rfl
          · exact absurd hvb he
        have h1 : 1 ≤ remaining.length := by
          cases hr : remaining with
          | nil => rw [hr] at heb; simp [List.take_nil] at heb
          | cons a as => simp
        have hlen : (remaining.take chunk_size).length = min chunk_size remaining.length :=
          List.length_take _ _
        have hdrop : (remaining.drop chunk_size).length = remaining.length - chunk_size :=
          List.length_drop _ _
        cases htk : transfer k with
        | exn e =>
          rw [transferLoop, if_pos hlt]
          simp only [heb, Bool.false_eq_true, if_false, htk, TransferOutcome.chunks,
            List.length_cons, List.length_nil]
          rw [hc4]
          omega
        | response code body =>
          by_cases h200 : code = 200
          · subst h200
            rw [transferLoop_step_200 transfer file_sz fuel remaining off k body hlt heb htk]
            have hih := ih (remaining.drop chunk_size)
              (body.start_offset.getD (off + ((remaining.take chunk_size).length : Int)))
              (k + 1)
            rw [hdrop] at hih
            rcases hrec : transferLoop transfer file_sz fuel (remaining.drop chunk_size)
                (body.start_offset.getD (off + ((remaining.take chunk_size).length : Int)))
                (k + 1) with cs | ⟨m, cs⟩ | ⟨e, cs⟩ <;>
              rw [hrec] at hih <;>
              dsimp only <;>
              simp only [TransferOutcome.chunks, List.length_cons] at hih ⊢ <;>
              rw [hc4] at hih ⊢ <;>
              omega
          · rw [transferLoop, if_pos hlt]
            simp only [heb, Bool.false_eq_true, if_false, htk, h200,
              TransferOutcome.chunks, List.length_cons, List.length_nil]
            rw [hc4]
            omega
    · rw [transferLoop, if_neg hlt]
      simp [TransferOutcome.chunks]

/-- Once the transfer loop has completed with chunk trace `cs`, the run
records exactly those chunks and exactly one finish call, whatever the
finish and poll events bring. -/
lemma post_video_after_done
    (vargs : VideoArgs) (server : VideoServer)
    (hm : pyBlank vargs.message = false) (hex : vargs.fileExists = true)
    (hisf : vargs.isFile = true) (hsuf : asciiLower vargs.suffix ∈ videoExtensions)
    (hst : vargs.statError = none) (hopen : vargs.openFails = false)
    (sbody : StartBody) (hstart : server.start = .response 200 sbody)
    (cs : List Nat)
    (htr : transferLoop server.transfer vargs.content.length (vargs.content.length + 1)
        vargs.content (sbody.start_offset.getD 0) 0 = .done cs) :
    (post_video vargs server).transferChunks = cs ∧
    (post_video vargs server).finishCalls = 1 := by
  simp only [post_video, hm, Bool.false_eq_true, if_false, hex, hisf, hst, hopen,
    hstart, htr]
  rcases hfin : server.finish with ⟨fcode, fbody⟩ | e
  · rcases hpl : pollLoop server.statusPoll 0 max_checks with ⟨o, polls⟩
    cases o <;> simp [hfin, hpl, hsuf] <;> split_ifs <;> simp
  · simp [hfin, hsuf]

/-- C2 (amended): for a chunked upload whose start response reports
offset 0 (or omits it) and whose transfer responses are HTTP 200 and
omit `start_offset` — so the client's own arithmetic
(current offset + chunk length) supplies each next offset — the byte
lengths of the chunks sent across all transfer calls sum to exactly the
file's size, and the finish phase is then invoked. (For arbitrary
server-reported offsets the property fails:
`video_chunk_sum_counterexample`.) -/
theorem video_chunk_sum_equals_size
    (vargs : VideoArgs) (server : VideoServer)
    (hm : pyBlank vargs.message = false) (hex : vargs.fileExists = true)
    (hisf : vargs.isFile = true) (hsuf : asciiLower vargs.suffix ∈ videoExtensions)
    (hst : vargs.statError = none) (hopen : vargs.openFails = false)
    (sbody : StartBody) (hstart : server.start = .response 200 sbody)
    (hso : sbody.start_offset.getD 0 = 0)
    (htrans : ∀ k, ∃ b, server.transfer k = .response 200 b ∧ b.start_offset = none) :
    (post_video vargs server).transferChunks.sum = vargs.content.length ∧
    (post_video vargs server).finishCalls = 1 := by
  obtain ⟨cs, hcs, hsum⟩ := transferLoop_echo server.transfer vargs.content.length htrans
    (vargs.content.length + 1) vargs.content 0 0 (by omega) (by simp)
  have hcs' : transferLoop server.transfer vargs.content.length (vargs.content.length + 1)
      vargs.content (sbody.start_offset.getD 0) 0 = .done cs := by
    rw [hso]; exact hcs
  obtain ⟨h1, h2⟩ :=
    post_video_after_done vargs server hm hex hisf hsuf hst hopen sbody hstart cs hcs'
  rw [h1, h2, hsum]
  exact ⟨rfl, rfl⟩

/-- Concrete instance of `video_chunk_sum_equals_size`: a 2-byte file
uploaded against a well-behaved server. -/
theorem video_chunk_sum_equals_size_witness :
    (post_video { message := "hi", path := "v.mp4", suffix := ".mp4", content := [5, 6] }
      ⟨.response 200 { video_id := some "v", start_offset := some 0 },
       fun _ => .response 200 {}, .response 200 { success := some true },
       fun _ => .response 200 { status := some "ready" }⟩).transferChunks.sum =
      ([5, 6] : List Nat).length ∧
    (post_video { message := "hi", path := "v.mp4", suffix := ".mp4", content := [5, 6] }
      ⟨.response 200 { video_id := some "v", start_offset := some 0 },
       fun _ => .response 200 {}, .response 200 { success := some true },
       fun _ => .response 200 { status := some "ready" }⟩).finishCalls = 1 :=
  video_chunk_sum_equals_size _
    ⟨.response 200 { video_id := some "v", start_offset := some 0 },
     fun _ => .response 200 {}, .response 200 { success := some true },
     fun _ => .response 200 { status := some "ready" }⟩
    (by decide) rfl rfl (by decide) rfl rfl _ rfl rfl (fun k => ⟨{}, rfl, rfl⟩)

/-- C2 is false for arbitrary server-reported offsets: with a 1-byte
file and a start response reporting `start_offset = 1`, the transfer
loop sends no chunk at all, yet the finish phase is still invoked — the
sum of the bytes sent (0) differs from the file size (1). -/
theorem video_chunk_sum_counterexample :
    (post_video { message := "hi", path := "v.mp4", suffix := ".mp4", content := [9] }
      ⟨.response 200
         { video_id := some "v", upload_session_id := some "s", start_offset := some 1 },
       fun _ => .response 200 {}, .response 200 { success := some true },
       fun _ => .response 200 { status := some "ready" }⟩).finishCalls = 1 ∧
    (post_video { message := "hi", path := "v.mp4", suffix := ".mp4", content := [9] }
      ⟨.response 200
         { video_id := some "v", upload_session_id := some "s", start_offset := some 1 },
       fun _ => .response 200 {}, .response 200 { success := some true },
       fun _ => .response 200 { status := some "ready" }⟩).transferChunks.sum ≠ 1 := by
  decide

/-- C10: for every message, file and server behaviour — never-advancing
or decreasing offsets included — `post_video` makes at most
⌈file_size / (4 MiB)⌉ transfer calls, because chunks are read
sequentially from the file handle and the loop exits when a read
returns no data. (Termination itself is inherent in the embedding: the
loop is a total function that consumes the file sequentially.) -/
theorem video_transfer_calls_bounded (vargs : VideoArgs) (server : VideoServer) :
    (post_video vargs server).transferChunks.length ≤
      (vargs.content.length + chunk_size - 1) / chunk_size := by
  have key := transferLoop_chunks_length_le server.transfer vargs.content.length
  by_cases hm : pyBlank vargs.message = true
  · simp [post_video, hm]
  rw [Bool.not_eq_true] at hm
  by_cases hex : vargs.fileExists = true
  case neg =>
    rw [Bool.not_eq_true] at hex
    simp [post_video, hm, hex]
  by_cases hisf : vargs.isFile = true
  case neg =>
    rw [Bool.not_eq_true] at hisf
    simp [post_video, hm, hex, hisf]
  by_cases hsuf : asciiLower vargs.suffix ∈ videoExtensions
  case neg => simp [post_video, hm, hex, hisf, hsuf]
  rcases hst : vargs.statError with _ | e
  rotate_left
  · simp [post_video, hm, hex, hisf, hsuf, hst]
  rcases hstart : server.start with ⟨scode, sbody⟩ | e
  rotate_left
  · simp [post_video, hm, hex, hisf, hsuf, hst, hstart]
  by_cases h200 : scode = 200
  case neg => simp [post_video, hm, hex, hisf, hsuf, hst, hstart, h200]
  subst h200
  by_cases hopen : vargs.openFails = true
  · simp [post_video, hm, hex, hisf, hsuf, hst, hstart, hopen]
  rw [Bool.not_eq_true] at hopen
  have hb := key (vargs.content.length + 1) vargs.content (sbody.start_offset.getD 0) 0
  rcases htr : transferLoop server.transfer vargs.content.length (vargs.content.length + 1)
      vargs.content (sbody.start_offset.getD 0) 0 with cs | ⟨m, cs⟩ | ⟨e, cs⟩ <;>
    rw [htr] at hb <;> simp only [TransferOutcome.chunks] at hb
  · obtain ⟨hc, -⟩ :=
      post_video_after_done vargs server hm hex hisf hsuf hst hopen sbody hstart cs htr
    rw [hc]
    exact hb
  · simpa [post_video, hm, hex, hisf, hsuf, hst, hstart, hopen, htr] using hb
  · simpa [post_video, hm, hex, hisf, hsuf, hst, hstart, hopen, htr] using hb

/-! ## Rotation selector and tracking store claims -/

/-- `lexLt` is irreflexive. -/
lemma lexLt_irrefl : ∀ a : List Char, lexLt a a = false := by
  intro a
  induction a with
  | nil => rfl
  | cons x xs ih => simp [lexLt, ih]

/-- `lexLt` is transitive. -/
lemma lexLt_trans :
    ∀ a b c : List Char, lexLt a b = true → lexLt b c = true → lexLt a c = true := by
  intro a
  induction a with
  | nil =>
    intro b c hab hbc
    cases b with
    | nil => simp [lexLt] at hab
    | cons y ys =>
      cases c with
      | nil => simp [lexLt] at hbc
      | cons z zs => rfl
  | cons x xs ih =>
    intro b c hab hbc
    cases b with
    | nil => simp [lexLt] at hab
    | cons y ys =>
      cases c with
      | nil => simp [lexLt] at hbc
      | cons z zs =>
        simp only [lexLt] at hab hbc ⊢
        by_cases hxy : x < y
        · by_cases hyz : y < z
          · simp [lt_trans hxy hyz]
          · rw [if_neg hyz] at hbc
            by_cases heq : y = z
            · subst heq
              simp [hxy]
            · rw [if_neg heq] at hbc
              exact absurd hbc (by simp)
        · rw [if_neg hxy] at hab
          by_cases hxeq : x = y
          · subst hxeq
            rw [if_pos rfl] at hab
            by_cases hxz : x < z
            · simp [hxz]
            · rw [if_neg hxz] at hbc
              by_cases hxz2 : x = z
              · subst hxz2
                rw [if_pos rfl] at hbc
                simp [lt_irrefl, ih _ _ hab hbc]
              · rw [if_neg hxz2] at hbc
                exact absurd hbc (by simp)
          · rw [if_neg hxeq] at hab
            exact absurd hab (by simp)

/-- If `a` is not lexicographically below `b`, then either `b` is below
`a` or they are equal. -/
lemma lexLt_of_not_lexLt :
    ∀ a b : List Char, lexLt a b = false → lexLt b a = true ∨ a = b := by
  intro a
  induction a with
  | nil =>
    intro b hab
    cases b with
    | nil => right; rfl
    | cons y ys => simp [lexLt] at hab
  | cons x xs ih =>
    intro b hab
    cases b with
    | nil => left; rfl
    | cons y ys =>
      simp only [lexLt] at hab ⊢
      by_cases hxy : x < y
      · rw [if_pos hxy] at hab
        exact absurd hab (by simp)
      · rw [if_neg hxy] at hab
        by_cases hxeq : x = y
        · subst hxeq
          rw [if_pos rfl] at hab
          rcases ih ys hab with h | h
          · left
            simp [lt_irrefl, h]
          · right
            rw [h]
        · have hyx : y < x :=
            lt_of_le_of_ne (le_of_not_lt hxy) (fun h => hxeq h.symm)
          left
          simp [hyx]

/-- Python string `<` is irreflexive. -/
lemma pyStrLt_irrefl (s : String) : pyStrLt s s = false := lexLt_irrefl _

/-- Python string `<` is transitive. -/
lemma pyStrLt_trans {a b c : String} (h1 : pyStrLt a b = true) (h2 : pyStrLt b c = true) :
    pyStrLt a c = true := lexLt_trans _ _ _ h1 h2

/-- Python string `<` is connex: two non-comparing strings are equal. -/
lemma pyStrLt_connex {a b : String} (h : pyStrLt a b = false) :
    pyStrLt b a = true ∨ a = b := by
  rcases lexLt_of_not_lexLt a.data b.data h with h' | h'
  · exact Or.inl h'
  · right
    exact congrArg String.mk h'

/-- The `min`-selecting fold of the rotation selector: its result is the
seed or a list element, and no element (seed included) compares
strictly below it. -/
lemma foldl_min_spec (f : String → String) :
    ∀ (rest : List String) (q : String),
      (rest.foldl (fun best p => if pyStrLt (f p) (f best) then p else best) q = q ∨
        rest.foldl (fun best p => if pyStrLt (f p) (f best) then p else best) q ∈ rest) ∧
      pyStrLt (f q)
        (f (rest.foldl (fun best p => if pyStrLt (f p) (f best) then p else best) q)) = false ∧
      ∀ p ∈ rest,
        pyStrLt (f p)
          (f (rest.foldl (fun best p => if pyStrLt (f p) (f best) then p else best) q)) =
          false := by
  intro rest
  induction rest with
  | nil =>
    intro q
    exact ⟨Or.inl rfl, pyStrLt_irrefl _, by simp⟩
  | cons p rest ih =>
    intro q
    simp only [List.foldl_cons]
    obtain ⟨hmem, hq'min, hrest⟩ := ih (if pyStrLt (f p) (f q) then p else q)
    by_cases hpq : pyStrLt (f p) (f q) = true
    · rw [if_pos hpq] at hmem hq'min hrest ⊢
      refine ⟨?_, ?_, ?_⟩
      · rcases hmem with h | h
        · exact Or.inr (by rw [h]; exact List.mem_cons_self _ _)
        · exact Or.inr (List.mem_cons_of_mem _ h)
      · cases hqm : pyStrLt (f q)
          (f (rest.foldl (fun best p => if pyStrLt (f p) (f best) then p else best) p)) with
        | false => rfl
        | true => exact absurd (pyStrLt_trans hpq hqm) (by simp [hq'min])
      · intro x hx
        rcases List.mem_cons.mp hx with rfl | hx'
        · exact hq'min
        · exact hrest x hx'
    · have hpq' : pyStrLt (f p) (f q) = false := by
        cases h : pyStrLt (f p) (f q)
        · rfl
        · exact absurd h hpq
      rw [if_neg (by simp [hpq'])] at hmem hq'min hrest ⊢
      refine ⟨?_, ?_, ?_⟩
      · rcases hmem with h | h
        · exact Or.inl h
        · exact Or.inr (List.mem_cons_of_mem _ h)
      · exact hq'min
      · intro x hx
        rcases List.mem_cons.mp hx with rfl | hx'
        · cases hxm : pyStrLt (f x)
            (f (rest.foldl (fun best p => if pyStrLt (f p) (f best) then p else best) q)) with
          | false => rfl
          | true =>
            rcases pyStrLt_connex hpq' with hqp | heq
            · exact absurd (pyStrLt_trans hqp hxm) (by simp [hq'min])
            · rw [heq] at hxm
              exact absurd hxm (by simp [hq'min])
        · exact hrest x hx'

/-- C7: in automatic rotation (Mode B), for every media pool and
tracking store: if some enumerated asset has no key in the store, the
selector returns exactly one asset and it is never-posted, independent
of the timestamps of posted assets; if every asset is posted (and the
pool is non-empty), it returns exactly one asset, one whose
`last_posted` timestamp no other asset's timestamp lexicographically
precedes; an empty pool yields the empty list; and the result never has
more than one element. -/
theorem rotation_mode_b_selection (pool : List String) (tracking : List (String × String)) :
    ((∃ p ∈ pool, lastPosted tracking p = none) →
      ∃ q, get_assets_to_post_auto pool tracking = [q] ∧ q ∈ pool ∧
        lastPosted tracking q = none) ∧
    (pool ≠ [] → (∀ p ∈ pool, (lastPosted tracking p).isSome) →
      ∃ q, get_assets_to_post_auto pool tracking = [q] ∧ q ∈ pool ∧
        ∀ p ∈ pool, pyStrLt (tsOf tracking p) (tsOf tracking q) = false) ∧
    (pool = [] → get_assets_to_post_auto pool tracking = []) ∧
    (get_assets_to_post_auto pool tracking).length ≤ 1 := by
  refine ⟨?_, ?_, ?_, ?_⟩
  · rintro ⟨p, hp, hnone⟩
    have hpf : p ∈ pool.filter fun p => (lastPosted tracking p).isNone :=
      List.mem_filter.mpr ⟨hp, by simp [hnone]⟩
    cases hnp : pool.filter (fun p => (lastPosted tracking p).isNone) with
    | nil => rw [hnp] at hpf; cases hpf
    | cons q rest =>
      have hqf : q ∈ pool.filter fun p => (lastPosted tracking p).isNone := by
        rw [hnp]; exact List.mem_cons_self _ _
      obtain ⟨hq, hqn⟩ := List.mem_filter.mp hqf
      refine ⟨q, ?_, hq, by simpa using hqn⟩
      simp [get_assets_to_post_auto, hnp]
  · intro hne hall
    have hnp : pool.filter (fun p => (lastPosted tracking p).isNone) = [] := by
      rw [List.filter_eq_nil_iff]
      intro p hp
      simp only [Option.isNone_iff_eq_none]
      intro h
      have hsome := hall p hp
      rw [h] at hsome
      simp at hsome
    have hpos : pool.filter (fun p => (lastPosted tracking p).isSome) = pool :=
      List.filter_eq_self.mpr fun p hp => hall p hp
    obtain ⟨q, rest, rfl⟩ : ∃ q rest, pool = q :: rest := by
      cases pool with
      | nil => exact absurd rfl hne
      | cons a l => exact ⟨a, l, rfl⟩
    obtain ⟨hmem, hqmin, hrestmin⟩ := foldl_min_spec (tsOf tracking) rest q
    refine ⟨rest.foldl
        (fun best p => if pyStrLt (tsOf tracking p) (tsOf tracking best) then p else best) q,
      ?_, ?_, ?_⟩
    · simp [get_assets_to_post_auto, hnp, hpos]
    · rcases hmem with h | h
      · rw [h]
        exact List.mem_cons_self _ _
      · exact List.mem_cons_of_mem _ h
    · intro x hx
      rcases List.mem_cons.mp hx with rfl | hx'
      · exact hqmin
      · exact hrestmin x hx'
  · intro h
    subst h
    rfl
  · rcases hnp : pool.filter (fun p => (lastPosted tracking p).isNone) with _ | ⟨q, rest⟩
    · rcases hpos : pool.filter (fun p => (lastPosted tracking p).isSome) with _ | ⟨q, rest⟩ <;>
        simp [get_assets_to_post_auto, hnp, hpos]
    · simp [get_assets_to_post_auto, hnp]

/-- Concrete instances of `rotation_mode_b_selection`: a pool with one
never-posted asset always picks from the never-posted set; an
all-posted pool picks the asset with the earliest timestamp. -/
theorem rotation_mode_b_selection_witness :
    (∃ q, get_assets_to_post_auto ["a", "b"] [("a", "2025-01-02T10:00:00")] = [q] ∧
      q ∈ ["a", "b"] ∧ lastPosted [("a", "2025-01-02T10:00:00")] q = none) ∧
    (∃ q, get_assets_to_post_auto ["a", "b"]
        [("a", "2025-01-02T10:00:00"), ("b", "2025-01-01T08:00:00")] = [q] ∧
      q ∈ ["a", "b"] ∧
      ∀ p ∈ ["a", "b"],
        pyStrLt (tsOf [("a", "2025-01-02T10:00:00"), ("b", "2025-01-01T08:00:00")] p)
          (tsOf [("a", "2025-01-02T10:00:00"), ("b", "2025-01-01T08:00:00")] q) = false) :=
  ⟨(rotation_mode_b_selection ["a", "b"] [("a", "2025-01-02T10:00:00")]).1
      ⟨"b", by decide, by decide⟩,
   (rotation_mode_b_selection ["a", "b"]
       [("a", "2025-01-02T10:00:00"), ("b", "2025-01-01T08:00:00")]).2.1
      (by decide) (by decide)⟩

/-- C8: `save_asset_tracking` followed by `load_asset_tracking` returns
a map equal to the saved data — literally equal as an association list,
hence equal in key/value content under any (order-independent) lookup. -/
theorem save_load_roundtrip (data : List (String × String)) :
    load_asset_tracking (some (save_asset_tracking data)) = data ∧
    ∀ k, (load_asset_tracking (some (save_asset_tracking data))).find?
        (fun kv => kv.1 == k) = data.find? (fun kv => kv.1 == k) := by
  have h : load_asset_tracking (some (save_asset_tracking data)) = data := by
    induction data with
    | nil => rfl
    | cons kv t ih =>
      obtain ⟨k, v⟩ := kv
      simp only [save_asset_tracking, List.map_cons, load_asset_tracking,
        List.filterMap_cons] at ih ⊢
      rw [ih]
  exact ⟨h, fun k => by rw [h]⟩

end AutoPost
